import Mathlib

/-!
Shallow embedding of src/git_sync_runner.py (the launcher).

The program is straight-line Python:
  line 14: os.environ set (no observable effect modelled)
  line 17: SCRIPT_PATH = os.path.join(os.path.dirname(os.path.abspath(__file__)),
           "auto_git_sync.sh")            -- step 1, OUTSIDE the try block
  line 20: os.system cosmetic relabel (best effort, no modelled effect)
  lines 28-30: append two timestamped lines to LOG_FILE (startup log),
           OUTSIDE the try block
  lines 32-34: three print statements to stdout
  lines 37-52: try: Popen(["/bin/bash", SCRIPT_PATH], stdout=PIPE, stderr=PIPE);
           out, err = process.communicate();
           append a termination record (2-3 lines) to ERROR_LOG; sys.exit(1)
  lines 54-57: except Exception: append one exception line to ERROR_LOG;
           sys.exit(1)

Modelling decisions, each justified by Python / POSIX semantics:
  * An Env record supplies every run-dependent input: the directory of the
    launcher, the successive strftime outputs, which fallible step raises
    (as Option String carrying str(exception)), whether the script file
    exists, and the child process results.
  * subprocess.Popen raises (FileNotFoundError and similar) only when the
    executable argv[0] = "/bin/bash" cannot be spawned.  A missing or
    unreadable SCRIPT PATH does not make Popen raise: bash is spawned
    successfully, fails to open the script, writes
    "/bin/bash: <path>: No such file or directory" to stderr and exits
    with status 127.  Env.popenExc models argv[0]-level spawn failures;
    Env.scriptExists models existence of the script argument.
  * sys.exit(1) raises SystemExit, which derives from BaseException and is
    NOT caught by "except Exception"; so the termination branch never falls
    through into the exception branch.
  * An uncaught exception (including one raised before the try block)
    terminates the CPython interpreter with exit status 1.
  * Each "with open(..., 'a')" block is modelled atomically: it either
    appends all its lines or raises before writing any.  Both log files are
    opened in append mode only, so the model has append events only.
  * Each f.write call ends its payload with a newline; an event below
    carries the payload without the trailing newline, i.e. one written line
    (the stderr text may itself contain newlines; it is kept as one field).
-/

/-- Mirror of os.path.join for the fixed relative second component used by
the launcher (posixpath.join: drop an empty head, do not double a trailing
slash). -/
def pathJoin (a b : String) : String :=
  if a = "" then b
  else if a.data.getLast? = some '/' then a ++ b
  else a ++ "/" ++ b

/-- Environment of one run: all run-dependent inputs of the launcher. -/
structure Env where
  /-- os.path.dirname(os.path.abspath(__file__)): directory of the launcher. -/
  dirname : String
  /-- Successive outputs of time.strftime("%Y-%m-%d %H:%M:%S"), in program
  order: index 0 and 1 in the startup-log block, index 2 in whichever
  error-log write runs. -/
  ts : Nat → String
  /-- some msg when the SCRIPT_PATH computation (line 17, step 1) raises an
  exception whose str() is msg; none when it succeeds. -/
  step1Exc : Option String
  /-- some msg when the startup-log open/write block (lines 28-30) raises. -/
  startupWriteExc : Option String
  /-- some msg when subprocess.Popen raises, i.e. "/bin/bash" itself cannot
  be spawned (missing interpreter, fork failure, ...). -/
  popenExc : Option String
  /-- some msg when process.communicate() raises. -/
  commExc : Option String
  /-- Whether the file SCRIPT_PATH exists and is readable by bash. -/
  scriptExists : Bool
  /-- Exit status of the script when it runs (process.returncode). -/
  childExit : Int
  /-- Captured stdout of the child, decoded (out in the source). -/
  childOut : String
  /-- Captured stderr of the child, decoded (err in the source). -/
  childErr : String
  /-- some msg when the termination-record open/write block (lines 46-50)
  raises; it sits inside the try block, so it is caught. -/
  termWriteExc : Option String
  /-- some msg when the exception-record open/write block (lines 55-56)
  raises; that exception is unhandled. -/
  excWriteExc : Option String

/-- SCRIPT_PATH (line 17 of the source). -/
def scriptPath (e : Env) : String := pathJoin e.dirname "auto_git_sync.sh"

/-- LOG_FILE (line 24 of the source). -/
def logFile (e : Env) : String := pathJoin e.dirname "sync_log.txt"

/-- ERROR_LOG (line 25 of the source). -/
def errorLogFile (e : Env) : String := pathJoin e.dirname "sync_error.log"

/-- Diagnostic bash writes to stderr before exiting 127 when its script
argument does not exist. -/
def bashNoFile (p : String) : String :=
  "/bin/bash: " ++ p ++ ": No such file or directory"

/-- Exit status the waited-on child reports: the script result when the
script exists, otherwise 127 from bash itself. -/
def childCode (e : Env) : Int := if e.scriptExists then e.childExit else 127

/-- Stderr text captured from the waited-on child: the script output when
the script exists, otherwise the bash diagnostic. -/
def childErrText (e : Env) : String :=
  if e.scriptExists then e.childErr else bashNoFile (scriptPath e)

/-- One record appended to ERROR_LOG: the source has exactly two write
sites, lines 46-50 (termination) and lines 55-56 (exception). -/
inductive ErrRecord where
  | termination (ts : String) (code : Int) (errText : String)
  | exception (ts : String) (msg : String)
deriving DecidableEq

/-- The lines a record contributes to sync_error.log, exactly the f-strings
of the source (lines 46-50 and 55-56); the stderr line is present iff the
captured stderr is non-empty (the "if err:" test on bytes). -/
def ErrRecord.lines : ErrRecord → List String
  | .termination ts code errText =>
      [ts ++ ": Git sync process terminated unexpectedly",
       "Return code: " ++ toString code]
      ++ (if errText = "" then [] else ["Error output: " ++ errText])
  | .exception ts msg =>
      [ts ++ ": Exception running git sync script: " ++ msg]

/-- Observable output event of one run, in program order. -/
inductive Event where
  /-- One line appended to sync_log.txt (startup log). -/
  | startupLine (s : String)
  /-- One line printed to the launcher stdout. -/
  | stdoutLine (s : String)
  /-- One record appended to sync_error.log. -/
  | errRecord (r : ErrRecord)
deriving DecidableEq

/-- Outcome of one run of the launcher. -/
structure RunResult where
  /-- All output events, in the order the program produced them. -/
  events : List Event
  /-- Exit status of the launcher process. -/
  exit : Int
  /-- True when the run ended with an unhandled exception (interpreter
  exits 1 with a traceback) rather than through sys.exit(1). -/
  uncaught : Bool
deriving DecidableEq

/-- Events produced before the try block in every run that gets past the
startup-log write: lines 28-30 (two startup-log lines) and lines 32-34
(three prints). -/
def preEvents (e : Env) : List Event :=
  [Event.startupLine (e.ts 0 ++ ": Starting RebasedCode Git Sync Runner"),
   Event.startupLine (e.ts 1 ++ ": Script path: " ++ scriptPath e),
   Event.stdoutLine "Starting RebasedCode Git Sync process...",
   Event.stdoutLine ("Script path: " ++ scriptPath e),
   Event.stdoutLine ("Logs will be written to " ++ logFile e ++ " and "
     ++ errorLogFile e)]

/-- The except-Exception handler (lines 54-57): append one exception record
and sys.exit(1); if that very write raises, the new exception is unhandled. -/
def exceptBranch (e : Env) (pre : List Event) (msg : String) : RunResult :=
  match e.excWriteExc with
  | some _ => { events := pre, exit := 1, uncaught := true }
  | none =>
      { events := pre ++ [Event.errRecord (.exception (e.ts 2) msg)],
        exit := 1, uncaught := false }

/-- One run of src/git_sync_runner.py under environment e. -/
def run (e : Env) : RunResult :=
  match e.step1Exc with
  | some _ =>
      -- line 17 raised before the try block: unhandled, nothing written
      { events := [], exit := 1, uncaught := true }
  | none =>
      match e.startupWriteExc with
      | some _ =>
          -- lines 28-30 raised before the try block: unhandled
          { events := [], exit := 1, uncaught := true }
      | none =>
          let pre := preEvents e
          match e.popenExc with
          | some msg => exceptBranch e pre msg
          | none =>
              match e.commExc with
              | some msg => exceptBranch e pre msg
              | none =>
                  -- communicate returned: the child exited
                  match e.termWriteExc with
                  | some msg => exceptBranch e pre msg
                  | none =>
                      { events := pre ++ [Event.errRecord
                          (.termination (e.ts 2) (childCode e)
                            (childErrText e))],
                        exit := 1, uncaught := false }

/-- Lines of the startup log appended during the run. -/
def startupLines (r : RunResult) : List String :=
  r.events.filterMap fun ev =>
    match ev with
    | .startupLine s => some s
    | _ => none

/-- Records appended to the error log during the run. -/
def errorRecords (r : RunResult) : List ErrRecord :=
  r.events.filterMap fun ev =>
    match ev with
    | .errRecord rec => some rec
    | _ => none

/-- Lines of the error log appended during the run. -/
def errorLines (r : RunResult) : List String :=
  (errorRecords r).map ErrRecord.lines |>.flatten

/-- Whether a record is a Termination Record (write site lines 46-50). -/
def isTermRecord : ErrRecord → Bool
  | .termination _ _ _ => true
  | .exception _ _ => false

/-- Whether a record is an Exception Record (write site lines 55-56). -/
def isExcRecord : ErrRecord → Bool
  | .termination _ _ _ => false
  | .exception _ _ => true

/-- Number of Termination Records the run appended to the error log. -/
def termRecordCount (r : RunResult) : Nat :=
  ((errorRecords r).filter isTermRecord).length

/-- Number of Exception Records the run appended to the error log. -/
def excRecordCount (r : RunResult) : Nat :=
  ((errorRecords r).filter isExcRecord).length

/-- Whether an event is an append to the startup log. -/
def isStartupEv : Event → Bool
  | .startupLine _ => true
  | _ => false

/-- Whether an event is an append to the error log. -/
def isErrorEv : Event → Bool
  | .errRecord _ => true
  | _ => false

/-- Character-level check of the 19 characters of a
"%Y-%m-%d %H:%M:%S" timestamp. -/
def tsChars : List Char → Bool
  | [y1, y2, y3, y4, a, m1, m2, b, d1, d2, sp, h1, h2, c1, n1, n2, c2, s1, s2] =>
      y1.isDigit && y2.isDigit && y3.isDigit && y4.isDigit && (a == '-')
      && m1.isDigit && m2.isDigit && (b == '-') && d1.isDigit && d2.isDigit
      && (sp == ' ') && h1.isDigit && h2.isDigit && (c1 == ':')
      && n1.isDigit && n2.isDigit && (c2 == ':') && s1.isDigit && s2.isDigit
  | _ => false

/-- A string has the exact shape YYYY-MM-DD HH:MM:SS (what
time.strftime("%Y-%m-%d %H:%M:%S") always produces). -/
def isTimestamp (s : String) : Bool :=
  s.length == 19 && tsChars s.toList

/-- A run in which every step succeeds: the script exists, the child exits
with status 3 after writing "boom" to stderr. -/
def envTerm : Env :=
  { dirname := "/repo", ts := fun _ => "2024-01-01 00:00:00",
    step1Exc := none, startupWriteExc := none, popenExc := none,
    commExc := none, scriptExists := true, childExit := 3,
    childOut := "hello", childErr := "boom",
    termWriteExc := none, excWriteExc := none }

/-- A run in which the script file does not exist (and everything else
succeeds): bash exits 127 with its diagnostic. -/
def envNoScript : Env :=
  { dirname := "/repo", ts := fun _ => "2024-01-01 00:00:00",
    step1Exc := none, startupWriteExc := none, popenExc := none,
    commExc := none, scriptExists := false, childExit := 0,
    childOut := "", childErr := "",
    termWriteExc := none, excWriteExc := none }

/-- A run in which SCRIPT_PATH computation (step 1) raises. -/
def envStep1 : Env :=
  { dirname := "/repo", ts := fun _ => "2024-01-01 00:00:00",
    step1Exc := some "boom", startupWriteExc := none, popenExc := none,
    commExc := none, scriptExists := true, childExit := 0,
    childOut := "", childErr := "",
    termWriteExc := none, excWriteExc := none }

/-- A run in which subprocess.Popen itself raises (bash cannot be spawned). -/
def envSpawnFail : Env :=
  { dirname := "/repo", ts := fun _ => "2024-01-01 00:00:00",
    step1Exc := none, startupWriteExc := none,
    popenExc := some "spawn failed", commExc := none, scriptExists := true,
    childExit := 0, childOut := "", childErr := "",
    termWriteExc := none, excWriteExc := none }

lemma run_eq_step1 (e : Env) (m : String) (h : e.step1Exc = some m) :
    run e = { events := [], exit := 1, uncaught := true } := by
  unfold run
  rw [h]

lemma run_eq_startupFail (e : Env) (m : String) (h1 : e.step1Exc = none)
    (h2 : e.startupWriteExc = some m) :
    run e = { events := [], exit := 1, uncaught := true } := by
  unfold run
  rw [h1, h2]

lemma run_eq_popenExc (e : Env) (m : String) (h1 : e.step1Exc = none)
    (h2 : e.startupWriteExc = none) (h3 : e.popenExc = some m) :
    run e = exceptBranch e (preEvents e) m := by
  unfold run
  rw [h1, h2, h3]

lemma run_eq_commExc (e : Env) (m : String) (h1 : e.step1Exc = none)
    (h2 : e.startupWriteExc = none) (h3 : e.popenExc = none)
    (h4 : e.commExc = some m) :
    run e = exceptBranch e (preEvents e) m := by
  unfold run
  rw [h1, h2, h3, h4]

lemma run_eq_termWriteExc (e : Env) (m : String) (h1 : e.step1Exc = none)
    (h2 : e.startupWriteExc = none) (h3 : e.popenExc = none)
    (h4 : e.commExc = none) (h5 : e.termWriteExc = some m) :
    run e = exceptBranch e (preEvents e) m := by
  unfold run
  rw [h1, h2, h3, h4, h5]

lemma run_eq_term (e : Env) (h1 : e.step1Exc = none)
    (h2 : e.startupWriteExc = none) (h3 : e.popenExc = none)
    (h4 : e.commExc = none) (h5 : e.termWriteExc = none) :
    run e = ⟨preEvents e
        ++ [Event.errRecord (.termination (e.ts 2) (childCode e) (childErrText e))],
      1, false⟩ := by
  unfold run
  rw [h1, h2, h3, h4, h5]

lemma exceptBranch_eq_ok (e : Env) (pre : List Event) (m : String)
    (h : e.excWriteExc = none) :
    exceptBranch e pre m = ⟨pre ++ [Event.errRecord (.exception (e.ts 2) m)],
      1, false⟩ := by
  unfold exceptBranch
  rw [h]

lemma exceptBranch_eq_fail (e : Env) (pre : List Event) (m m2 : String)
    (h : e.excWriteExc = some m2) :
    exceptBranch e pre m = { events := pre, exit := 1, uncaught := true } := by
  unfold exceptBranch
  rw [h]

/-- In every branch of the program, the launcher terminates with status 1:
sys.exit(1) at lines 52 and 57, and status 1 from the interpreter for an
unhandled exception. -/
lemma exit_one (e : Env) : (run e).exit = 1 := by
  unfold run exceptBranch
  repeat' split
  all_goals rfl

/-- C3: every reachable terminal state of the launcher has a non-zero exit
status: the termination branch and the exception branch both call
sys.exit(1), and a run ending in an unhandled exception makes the
interpreter exit 1; no path exits 0. -/
theorem claim_c3_nonzero_exit (e : Env) : ((run e).exit == 0) = false := by
  rw [exit_one]
  rfl

/-- C10: in every reachable terminal state, and in particular in both the
unexpected-child-termination branch (line 52) and the caught-exception
branch (line 57), the launcher exit status is exactly 1. -/
theorem claim_c10_exit_exactly_one (e : Env) : (run e).exit = 1 := exit_one e

/-- C9: the captured stdout of the child (out at line 43) is discarded:
no observable output of the run - startup log, error log, launcher stdout,
or exit status - depends on it in any way. -/
theorem claim_c9_stdout_discarded (e : Env) (o1 o2 : String) :
    run { e with childOut := o1 } = run { e with childOut := o2 } := rfl

/-- C1 claims a missing script makes the launcher catch an error and write
an Exception Record.  It does not: Popen spawns "/bin/bash" (which exists),
bash exits 127, and the launcher writes a Termination Record instead.  At
the concrete run envNoScript, whose script file does not exist, zero
Exception Records and one Termination Record are appended. -/
theorem claim_c1_counterexample :
    envNoScript.scriptExists = false
    ∧ excRecordCount (run envNoScript) = 0
    ∧ termRecordCount (run envNoScript) = 1 := by decide

/-- C1 amended: in a run where the external script file does not exist but
bash spawns and the waits and writes succeed, no exception is raised; bash
exits with status 127 after writing its diagnostic to stderr, the launcher
appends exactly one Termination Record (code 127, bash diagnostic) and no
Exception Record to the error log, and exits with status 1. -/
theorem claim_c1_missing_script (e : Env) (hs : e.scriptExists = false)
    (h1 : e.step1Exc = none) (h2 : e.startupWriteExc = none)
    (h3 : e.popenExc = none) (h4 : e.commExc = none)
    (h5 : e.termWriteExc = none) :
    errorRecords (run e)
      = [ErrRecord.termination (e.ts 2) 127 (bashNoFile (scriptPath e))]
    ∧ excRecordCount (run e) = 0
    ∧ termRecordCount (run e) = 1
    ∧ (run e).exit = 1 := by
  rw [run_eq_term e h1 h2 h3 h4 h5]
  simp [errorRecords, excRecordCount, termRecordCount, preEvents,
    childCode, childErrText, hs, isTermRecord, isExcRecord]

theorem claim_c1_missing_script_witness :
    errorRecords (run envNoScript)
      = [ErrRecord.termination (envNoScript.ts 2) 127
          (bashNoFile (scriptPath envNoScript))]
    ∧ excRecordCount (run envNoScript) = 0
    ∧ termRecordCount (run envNoScript) = 1
    ∧ (run envNoScript).exit = 1 :=
  claim_c1_missing_script envNoScript rfl rfl rfl rfl rfl rfl

/-- C2 claims an exception in step 1 (the SCRIPT_PATH computation, line 17)
is caught and logged.  It is not: the try block only starts at line 37, so
a step-1 exception propagates unhandled and nothing at all is written.  At
the concrete run envStep1, in which step 1 raises, the error log gains no
Exception Record and the run ends with an unhandled exception. -/
theorem claim_c2_counterexample :
    envStep1.step1Exc = some "boom"
    ∧ excRecordCount (run envStep1) = 0
    ∧ (run envStep1).events = []
    ∧ (run envStep1).uncaught = true := by decide

/-- C2 amended: an exception raised in step 5 - by subprocess.Popen or by
process.communicate - is caught by the except-Exception handler, exactly
one Exception Record (timestamp plus exception description) is appended to
the error log, and the launcher exits with status 1; an exception raised in
step 1, by contrast, is not caught (the try block begins only at line 37):
no record of any kind is written and the run ends with an unhandled
exception (interpreter exit status 1). -/
theorem claim_c2_exception_handling :
    (∀ (e : Env) (m : String), e.step1Exc = none → e.startupWriteExc = none →
      (e.popenExc = some m ∨ (e.popenExc = none ∧ e.commExc = some m)) →
      e.excWriteExc = none →
      errorRecords (run e) = [ErrRecord.exception (e.ts 2) m]
        ∧ excRecordCount (run e) = 1 ∧ termRecordCount (run e) = 0
        ∧ (run e).exit = 1 ∧ (run e).uncaught = false)
    ∧ (∀ (e : Env) (m : String), e.step1Exc = some m →
      (run e).events = [] ∧ (run e).exit = 1 ∧ (run e).uncaught = true) := by
  constructor
  · rintro e m h1 h2 (h3 | ⟨h3, h4⟩) he
    · rw [run_eq_popenExc e m h1 h2 h3, exceptBranch_eq_ok e _ m he]
      simp [errorRecords, excRecordCount, termRecordCount, preEvents,
        isExcRecord, isTermRecord]
    · rw [run_eq_commExc e m h1 h2 h3 h4, exceptBranch_eq_ok e _ m he]
      simp [errorRecords, excRecordCount, termRecordCount, preEvents,
        isExcRecord, isTermRecord]
  · intro e m h
    rw [run_eq_step1 e m h]
    exact ⟨rfl, rfl, rfl⟩

theorem claim_c2_witness :
    (errorRecords (run envSpawnFail)
        = [ErrRecord.exception (envSpawnFail.ts 2) "spawn failed"]
      ∧ excRecordCount (run envSpawnFail) = 1
      ∧ termRecordCount (run envSpawnFail) = 0
      ∧ (run envSpawnFail).exit = 1 ∧ (run envSpawnFail).uncaught = false)
    ∧ ((run envStep1).events = [] ∧ (run envStep1).exit = 1
      ∧ (run envStep1).uncaught = true) :=
  ⟨claim_c2_exception_handling.1 envSpawnFail "spawn failed" rfl rfl
      (Or.inl rfl) rfl,
   claim_c2_exception_handling.2 envStep1 "boom" rfl⟩

/-- C4: in every run in which the child exits while being waited on (the
communicate call returns) and the error-log write succeeds, exactly one
Termination Record is appended, carrying the strftime timestamp (which is
correctly formatted) and the exit code the child actually returned. -/
theorem claim_c4_termination_record (e : Env)
    (h1 : e.step1Exc = none) (h2 : e.startupWriteExc = none)
    (h3 : e.popenExc = none) (h4 : e.commExc = none)
    (h5 : e.termWriteExc = none) (hts : isTimestamp (e.ts 2) = true) :
    errorRecords (run e)
      = [ErrRecord.termination (e.ts 2) (childCode e) (childErrText e)]
    ∧ termRecordCount (run e) = 1
    ∧ isTimestamp (e.ts 2) = true := by
  rw [run_eq_term e h1 h2 h3 h4 h5]
  refine ⟨?_, ?_, hts⟩ <;>
    simp [errorRecords, termRecordCount, preEvents, isTermRecord]

theorem claim_c4_witness :
    errorRecords (run envTerm)
      = [ErrRecord.termination (envTerm.ts 2) (childCode envTerm)
          (childErrText envTerm)]
    ∧ termRecordCount (run envTerm) = 1
    ∧ isTimestamp (envTerm.ts 2) = true :=
  claim_c4_termination_record envTerm rfl rfl rfl rfl rfl (by decide)

/-- Startup log content of every run that gets past the startup-log write:
exactly the two lines of code lines 29 and 30, whatever happens later. -/
lemma startupLines_run (e : Env) (h1 : e.step1Exc = none)
    (h2 : e.startupWriteExc = none) :
    startupLines (run e)
      = [e.ts 0 ++ ": Starting RebasedCode Git Sync Runner",
         e.ts 1 ++ ": Script path: " ++ scriptPath e] := by
  have hexc : ∀ m : String, startupLines (exceptBranch e (preEvents e) m)
      = [e.ts 0 ++ ": Starting RebasedCode Git Sync Runner",
         e.ts 1 ++ ": Script path: " ++ scriptPath e] := by
    intro m
    rcases he : e.excWriteExc with _ | m2
    · rw [exceptBranch_eq_ok e _ m he]
      simp [startupLines, preEvents]
    · rw [exceptBranch_eq_fail e _ m m2 he]
      simp [startupLines, preEvents]
  rcases h3 : e.popenExc with _ | m3
  · rcases h4 : e.commExc with _ | m4
    · rcases h5 : e.termWriteExc with _ | m5
      · rw [run_eq_term e h1 h2 h3 h4 h5]
        simp [startupLines, preEvents]
      · rw [run_eq_termWriteExc e m5 h1 h2 h3 h4 h5]
        exact hexc m5
    · rw [run_eq_commExc e m4 h1 h2 h3 h4]
      exact hexc m4
  · rw [run_eq_popenExc e m3 h1 h2 h3]
    exact hexc m3

/-- C5: every run that completes the startup-log write appends exactly two
lines to the startup log - one with the literal start announcement, one
with the resolved script path - and the resolved path is the launcher
directory joined with the fixed filename auto_git_sync.sh. -/
theorem claim_c5_startup_log (e : Env) (h1 : e.step1Exc = none)
    (h2 : e.startupWriteExc = none) :
    startupLines (run e)
      = [e.ts 0 ++ ": Starting RebasedCode Git Sync Runner",
         e.ts 1 ++ ": Script path: " ++ scriptPath e]
    ∧ (startupLines (run e)).length = 2
    ∧ scriptPath e = pathJoin e.dirname "auto_git_sync.sh" := by
  refine ⟨startupLines_run e h1 h2, ?_, rfl⟩
  rw [startupLines_run e h1 h2]
  rfl

theorem claim_c5_witness :
    startupLines (run envTerm)
      = [envTerm.ts 0 ++ ": Starting RebasedCode Git Sync Runner",
         envTerm.ts 1 ++ ": Script path: " ++ scriptPath envTerm]
    ∧ (startupLines (run envTerm)).length = 2
    ∧ scriptPath envTerm = pathJoin envTerm.dirname "auto_git_sync.sh" :=
  claim_c5_startup_log envTerm rfl rfl

/-- C6: when the script exists and exits after writing text to stderr, that
text appears verbatim in the Termination Record line built at code line 50,
and the stderr line is part of the record exactly when the captured text is
non-empty (the "if err:" test at line 49). -/
theorem claim_c6_stderr_verbatim (e : Env) (hx : e.scriptExists = true)
    (h1 : e.step1Exc = none) (h2 : e.startupWriteExc = none)
    (h3 : e.popenExc = none) (h4 : e.commExc = none)
    (h5 : e.termWriteExc = none) :
    errorLines (run e)
      = [e.ts 2 ++ ": Git sync process terminated unexpectedly",
         "Return code: " ++ toString e.childExit]
        ++ (if e.childErr = "" then [] else ["Error output: " ++ e.childErr])
    ∧ (e.childErr ≠ "" → ("Error output: " ++ e.childErr) ∈ errorLines (run e)) := by
  have hmain : errorLines (run e)
      = [e.ts 2 ++ ": Git sync process terminated unexpectedly",
         "Return code: " ++ toString e.childExit]
        ++ (if e.childErr = "" then [] else ["Error output: " ++ e.childErr]) := by
    rw [run_eq_term e h1 h2 h3 h4 h5]
    simp [errorLines, errorRecords, preEvents, ErrRecord.lines, childCode,
      childErrText, hx]
  refine ⟨hmain, fun hne => ?_⟩
  rw [hmain]
  simp [hne]

theorem claim_c6_witness :
    (errorLines (run envTerm)
      = [envTerm.ts 2 ++ ": Git sync process terminated unexpectedly",
         "Return code: " ++ toString envTerm.childExit]
        ++ (if envTerm.childErr = "" then []
            else ["Error output: " ++ envTerm.childErr]))
    ∧ (envTerm.childErr ≠ ""
        → ("Error output: " ++ envTerm.childErr) ∈ errorLines (run envTerm)) :=
  claim_c6_stderr_verbatim envTerm rfl rfl rfl rfl rfl rfl

/-- Every run decomposes as a block with no error-log event followed by a
block with no startup-log event. -/
lemma run_events_split (e : Env) :
    ∃ l1 l2, (run e).events = l1 ++ l2
      ∧ (∀ x ∈ l1, isErrorEv x = false)
      ∧ (∀ x ∈ l2, isStartupEv x = false) := by
  have hpre : ∀ x ∈ preEvents e, isErrorEv x = false := by
    simp [preEvents, isErrorEv]
  rcases h1 : e.step1Exc with _ | m1
  · rcases h2 : e.startupWriteExc with _ | m2
    · have hexc : ∀ m : String, ∃ l1 l2,
          (exceptBranch e (preEvents e) m).events = l1 ++ l2
          ∧ (∀ x ∈ l1, isErrorEv x = false)
          ∧ (∀ x ∈ l2, isStartupEv x = false) := by
        intro m
        rcases he : e.excWriteExc with _ | m2x
        · refine ⟨preEvents e, [Event.errRecord (.exception (e.ts 2) m)],
            ?_, hpre, by simp [isStartupEv]⟩
          rw [exceptBranch_eq_ok e _ m he]
        · refine ⟨preEvents e, [], ?_, hpre, by simp⟩
          rw [exceptBranch_eq_fail e _ m m2x he]
          simp
      rcases h3 : e.popenExc with _ | m3
      · rcases h4 : e.commExc with _ | m4
        · rcases h5 : e.termWriteExc with _ | m5
          · refine ⟨preEvents e, [Event.errRecord
              (.termination (e.ts 2) (childCode e) (childErrText e))],
              ?_, hpre, by simp [isStartupEv]⟩
            rw [run_eq_term e h1 h2 h3 h4 h5]
          · rw [run_eq_termWriteExc e m5 h1 h2 h3 h4 h5]
            exact hexc m5
        · rw [run_eq_commExc e m4 h1 h2 h3 h4]
          exact hexc m4
      · rw [run_eq_popenExc e m3 h1 h2 h3]
        exact hexc m3
    · refine ⟨[], [], ?_, by simp, by simp⟩
      rw [run_eq_startupFail e m2 h1 h2]
      rfl
  · refine ⟨[], [], ?_, by simp, by simp⟩
    rw [run_eq_step1 e m1 h1]
    rfl

/-- Positional ordering in a list split into an error-free block followed
by a startup-free block. -/
lemma split_order (l l1 l2 : List Event) (heq : l = l1 ++ l2)
    (hl1 : ∀ x ∈ l1, isErrorEv x = false)
    (hl2 : ∀ x ∈ l2, isStartupEv x = false)
    (i j : Fin l.length)
    (hi : isStartupEv (l.get i) = true)
    (hj : isErrorEv (l.get j) = true) :
    (i : Nat) < j := by
  subst heq
  have hi1 : (i : Nat) < l1.length := by
    by_contra hge
    push_neg at hge
    have hmem : (l1 ++ l2).get i ∈ l2 := by
      rw [List.get_eq_getElem, List.getElem_append_right hge]
      exact List.getElem_mem _
    have hx := hl2 _ hmem
    rw [hx] at hi
    exact Bool.false_ne_true hi
  have hj1 : l1.length ≤ (j : Nat) := by
    by_contra hlt
    push_neg at hlt
    have hmem : (l1 ++ l2).get j ∈ l1 := by
      rw [List.get_eq_getElem, List.getElem_append_left hlt]
      exact List.getElem_mem _
    have hx := hl1 _ hmem
    rw [hx] at hj
    exact Bool.false_ne_true hj
  omega

/-- C7: in every run, every append to the error log comes strictly after
every append to the startup log in the event order of the program (the
Launch Record at lines 28-30 precedes any Termination or Exception Record
at lines 46-56); the model contains only append events for either log,
because the source opens both files exclusively in append mode. -/
theorem claim_c7_launch_precedes_error (e : Env)
    (i j : Fin (run e).events.length)
    (hi : isStartupEv ((run e).events.get i) = true)
    (hj : isErrorEv ((run e).events.get j) = true) :
    (i : Nat) < j := by
  obtain ⟨l1, l2, heq, hl1, hl2⟩ := run_events_split e
  exact split_order _ l1 l2 heq hl1 hl2 i j hi hj

theorem claim_c7_witness :
    isStartupEv ((run envTerm).events.get ⟨0, by decide⟩) = true
    ∧ isErrorEv ((run envTerm).events.get ⟨5, by decide⟩) = true
    ∧ (0 : Nat) < 5 := by
  refine ⟨by decide, by decide, ?_⟩
  exact claim_c7_launch_precedes_error envTerm ⟨0, by decide⟩ ⟨5, by decide⟩
    (by decide) (by decide)

/-- The error log of any run is empty, a single exception line, or the
two-or-three termination lines. -/
lemma errorLines_cases (e : Env) :
    errorLines (run e) = []
    ∨ (∃ m, errorLines (run e)
        = [e.ts 2 ++ ": Exception running git sync script: " ++ m])
    ∨ errorLines (run e)
        = [e.ts 2 ++ ": Git sync process terminated unexpectedly",
           "Return code: " ++ toString (childCode e)]
          ++ (if childErrText e = "" then []
              else ["Error output: " ++ childErrText e]) := by
  rcases h1 : e.step1Exc with _ | m1
  · rcases h2 : e.startupWriteExc with _ | m2
    · have hexc : ∀ m : String,
          errorLines (exceptBranch e (preEvents e) m) = []
          ∨ (∃ m0, errorLines (exceptBranch e (preEvents e) m)
              = [e.ts 2 ++ ": Exception running git sync script: " ++ m0]) := by
        intro m
        rcases he : e.excWriteExc with _ | m2x
        · refine Or.inr ⟨m, ?_⟩
          rw [exceptBranch_eq_ok e _ m he]
          simp [errorLines, errorRecords, preEvents, ErrRecord.lines]
        · refine Or.inl ?_
          rw [exceptBranch_eq_fail e _ m m2x he]
          simp [errorLines, errorRecords, preEvents]
      rcases h3 : e.popenExc with _ | m3
      · rcases h4 : e.commExc with _ | m4
        · rcases h5 : e.termWriteExc with _ | m5
          · refine Or.inr (Or.inr ?_)
            rw [run_eq_term e h1 h2 h3 h4 h5]
            simp [errorLines, errorRecords, preEvents, ErrRecord.lines]
          · rw [run_eq_termWriteExc e m5 h1 h2 h3 h4 h5]
            rcases hexc m5 with h | h
            · exact Or.inl h
            · exact Or.inr (Or.inl h)
        · rw [run_eq_commExc e m4 h1 h2 h3 h4]
          rcases hexc m4 with h | h
          · exact Or.inl h
          · exact Or.inr (Or.inl h)
      · rw [run_eq_popenExc e m3 h1 h2 h3]
        rcases hexc m3 with h | h
        · exact Or.inl h
        · exact Or.inr (Or.inl h)
    · refine Or.inl ?_
      rw [run_eq_startupFail e m2 h1 h2]
      rfl
  · refine Or.inl ?_
    rw [run_eq_step1 e m1 h1]
    rfl

/-- C8 claims every error-log line is of the form
YYYY-MM-DD HH:MM:SS: message.  The Termination Record violates this: its
second line is "Return code: ..." with no timestamp.  At the concrete run
envTerm that line is in the error log, and no decomposition of it as a
timestamp followed by ": " and a message exists. -/
theorem claim_c8_counterexample :
    ("Return code: 3" : String) ∈ errorLines (run envTerm)
    ∧ ¬ ∃ t m, ("Return code: 3" : String) = t ++ (": " ++ m)
        ∧ isTimestamp t = true := by
  constructor
  · decide
  · rintro ⟨t, m, heq, hts⟩
    have hlen19 : t.length = 19 := by
      unfold isTimestamp at hts
      rw [Bool.and_eq_true] at hts
      simpa using hts.1
    have hl := congrArg String.length heq
    rw [String.length_append, String.length_append] at hl
    have h14 : ("Return code: 3" : String).length = 14 := rfl
    have hspl : (": " : String).length = 2 := rfl
    rw [h14, hspl] at hl
    omega

/-- C8 amended: every line of the error log is either a full timestamped
line - the strftime timestamp, then ": ", then the message, as at code
lines 47 and 56 - or one of the two untimestamped continuation lines of a
Termination Record, "Return code: ..." (line 48) or "Error output: ..."
(line 50). -/
theorem claim_c8_error_line_format (e : Env)
    (hts : isTimestamp (e.ts 2) = true) :
    ∀ l ∈ errorLines (run e),
      (∃ t m, l = t ++ (": " ++ m) ∧ isTimestamp t = true)
      ∨ (∃ c : Int, l = "Return code: " ++ toString c)
      ∨ (∃ s, l = "Error output: " ++ s) := by
  intro l hl
  have hsplitT : (": Git sync process terminated unexpectedly" : String)
      = ": " ++ "Git sync process terminated unexpectedly" := by decide
  have hsplitE : (": Exception running git sync script: " : String)
      = ": " ++ "Exception running git sync script: " := by decide
  rcases errorLines_cases e with h | ⟨m0, h⟩ | h
  · rw [h] at hl
    simp at hl
  · rw [h] at hl
    simp only [List.mem_singleton] at hl
    subst hl
    refine Or.inl ⟨e.ts 2, "Exception running git sync script: " ++ m0, ?_, hts⟩
    rw [String.append_assoc, hsplitE, String.append_assoc]
  · rw [h] at hl
    by_cases hc : childErrText e = ""
    · rw [if_pos hc] at hl
      simp only [List.append_nil, List.mem_cons, List.not_mem_nil, or_false,
        List.mem_singleton] at hl
      rcases hl with hl | hl
      · subst hl
        exact Or.inl ⟨e.ts 2, "Git sync process terminated unexpectedly",
          by rw [hsplitT], hts⟩
      · subst hl
        exact Or.inr (Or.inl ⟨childCode e, rfl⟩)
    · rw [if_neg hc] at hl
      simp only [List.mem_append, List.mem_cons, List.not_mem_nil, or_false,
        List.mem_singleton] at hl
      rcases hl with (hl | hl) | hl
      · subst hl
        exact Or.inl ⟨e.ts 2, "Git sync process terminated unexpectedly",
          by rw [hsplitT], hts⟩
      · subst hl
        exact Or.inr (Or.inl ⟨childCode e, rfl⟩)
      · subst hl
        exact Or.inr (Or.inr ⟨childErrText e, rfl⟩)

theorem claim_c8_witness :
    (∃ t m, ("2024-01-01 00:00:00: Git sync process terminated unexpectedly"
        : String) = t ++ (": " ++ m) ∧ isTimestamp t = true)
    ∨ (∃ c : Int,
        ("2024-01-01 00:00:00: Git sync process terminated unexpectedly"
        : String) = "Return code: " ++ toString c)
    ∨ (∃ s,
        ("2024-01-01 00:00:00: Git sync process terminated unexpectedly"
        : String) = "Error output: " ++ s) :=
  claim_c8_error_line_format envTerm (by decide) _ (by decide)
